import Mathlib

/-!
Verification development for the `mcp_work` repository.

The repository exposes a set of named tools behind two transports:
an HTTP server (`claude_api_mcp_server.py`, class `MCPServer`, method
`execute_tool` plus the FastAPI route `call_tool`) and a line-oriented
JSON-RPC server (`mcp_server.py`, method `handle_call_tool`).  This file
gives a shallow embedding of the dispatch table and the tool handlers and
proves the specification claims about them.

Modelling conventions:
* Python `int` is modelled as `ℤ` (arbitrary precision in both).
* Python `float` is modelled as an exact rational `ℚ`; binary64 rounding
  and `str(float)` shortest-repr formatting are abstracted away.  No claim
  depends on float rounding.  The one place exact rationals cannot follow
  Python (`**` with a non-integral exponent, whose binary64 result is
  irrational) is marked by a dedicated `EvalError.floatPow` model-boundary
  marker; no validated charset claim exercises it.
* OS state is an explicit parameter: the live process table is a list of
  pids, `subprocess.run` is an oracle `List String → CmdResult`, and the
  facts `platform`/`psutil` report are fields of an `Env` record.  Numeric
  host facts that the source only ever interpolates into report strings
  (cpu/memory/disk percentages and humanised sizes) are carried as
  pre-rendered strings, since no claim inspects their numeric value.
* Side effects are reified: each handler returns, next to its result
  string, the list of effects it performed (expressions handed to Python
  `eval`, signals sent to pids, external commands executed), so frame
  claims become statements that an effect list is empty.
-/

namespace MCPWork

/-- Python numeric value reachable in the restricted arithmetic fragment:
`int` stays exact, `float` is modelled as an exact rational. -/
inductive PyNum where
  | int (i : ℤ)
  | float (q : ℚ)
  deriving DecidableEq, Repr

/-- Numeric value of a `PyNum`, as used by Python numeric coercion. -/
def PyNum.toQ : PyNum → ℚ
  | .int i => (i : ℚ)
  | .float q => q

/-- Errors of the arithmetic fragment of Python `eval`.  `divByZero` is
`ZeroDivisionError`; `synErr` collapses the `SyntaxError` family (the
calculate branch only interpolates `str(e)`, and no claim pins the exact
syntax-error text); `floatPow` marks the model boundary where `**` with a
non-integral exponent leaves the rationals. -/
inductive EvalError where
  | divByZero
  | synErr
  | floatPow
  deriving DecidableEq, Repr

/-- Tokens of the validated charset.  `dstar` is Python `**`, `dslash` is
Python `//`; both are reachable through the character allow-set even
though the spec only names `+ - * / ( )`. -/
inductive Tok where
  | num (v : PyNum)
  | plus
  | minus
  | star
  | dstar
  | slash
  | dslash
  | lparen
  | rparen
  deriving DecidableEq, Repr

def digitVal (c : Char) : ℕ := c.toNat - '0'.toNat

def natOfDigits (ds : List Char) : ℕ := ds.foldl (fun a c => 10 * a + digitVal c) 0

/-- Parse one maximal run of digits-and-dots as a numeric literal, following
the CPython tokenizer: an integer literal is digits without a leading zero
(unless it is exactly `0...0`? no: CPython rejects decimal integers with
leading zeros other than `0` itself), a float literal is `digits.digits`
with either side optionally empty but not both.  Runs with two or more
dots, or a bare dot, are rejected; CPython likewise raises a
`SyntaxError`-class error on those inputs. -/
def parseNumRun (run : List Char) : Option PyNum :=
  let intPart := run.takeWhile (·.isDigit)
  let rest := run.dropWhile (·.isDigit)
  match rest with
  | [] =>
    if intPart.isEmpty then none
    else if 1 < intPart.length ∧ intPart.headD '0' = '0' then none
    else some (.int (natOfDigits intPart))
  | '.' :: frac =>
    if frac.all (·.isDigit) then
      if intPart.isEmpty ∧ frac.isEmpty then none
      else some (.float ((natOfDigits intPart : ℚ)
        + (natOfDigits frac : ℚ) / (10 : ℚ) ^ frac.length))
    else none
  | _ => none

def isNumChar (c : Char) : Bool := c.isDigit || c == '.'

/-- Tokenizer for the validated charset, fuel-indexed (the fuel argument is
only a termination device; `tokenize` supplies enough for any input). -/
def tokenizeAux : ℕ → List Char → Except EvalError (List Tok)
  | 0, _ => .error .synErr
  | _ + 1, [] => .ok []
  | fuel + 1, c :: cs =>
    if c == ' ' then tokenizeAux fuel cs
    else if c == '*' then
      match cs with
      | '*' :: cs2 => (tokenizeAux fuel cs2).map (Tok.dstar :: ·)
      | _ => (tokenizeAux fuel cs).map (Tok.star :: ·)
    else if c == '/' then
      match cs with
      | '/' :: cs2 => (tokenizeAux fuel cs2).map (Tok.dslash :: ·)
      | _ => (tokenizeAux fuel cs).map (Tok.slash :: ·)
    else if c == '+' then (tokenizeAux fuel cs).map (Tok.plus :: ·)
    else if c == '-' then (tokenizeAux fuel cs).map (Tok.minus :: ·)
    else if c == '(' then (tokenizeAux fuel cs).map (Tok.lparen :: ·)
    else if c == ')' then (tokenizeAux fuel cs).map (Tok.rparen :: ·)
    else if isNumChar c then
      match parseNumRun ((c :: cs).takeWhile isNumChar) with
      | some v => (tokenizeAux fuel ((c :: cs).dropWhile isNumChar)).map (Tok.num v :: ·)
      | none => .error .synErr
    else .error .synErr

def tokenize (s : String) : Except EvalError (List Tok) :=
  tokenizeAux (s.length + 1) s.data

/-- Abstract syntax of the Python expression fragment reachable through the
charset `0-9 + - * / . ( ) space`. -/
inductive AExpr where
  | num (v : PyNum)
  | pos (e : AExpr)
  | neg (e : AExpr)
  | add (a b : AExpr)
  | sub (a b : AExpr)
  | mul (a b : AExpr)
  | div (a b : AExpr)
  | fdiv (a b : AExpr)
  | pow (a b : AExpr)
  deriving Repr

mutual

/-- `arith_expr: term (('+'|'-') term)*` of the Python grammar. -/
def parseExpr : ℕ → List Tok → Except EvalError (AExpr × List Tok)
  | 0, _ => .error .synErr
  | fuel + 1, ts => do
    let (lhs, rest) ← parseTerm fuel ts
    parseExprLoop fuel lhs rest

def parseExprLoop : ℕ → AExpr → List Tok → Except EvalError (AExpr × List Tok)
  | 0, _, _ => .error .synErr
  | fuel + 1, lhs, Tok.plus :: rest => do
    let (rhs, rest2) ← parseTerm fuel rest
    parseExprLoop fuel (.add lhs rhs) rest2
  | fuel + 1, lhs, Tok.minus :: rest => do
    let (rhs, rest2) ← parseTerm fuel rest
    parseExprLoop fuel (.sub lhs rhs) rest2
  | _ + 1, lhs, ts => .ok (lhs, ts)

/-- `term: factor (('*'|'/'|'//') factor)*` of the Python grammar. -/
def parseTerm : ℕ → List Tok → Except EvalError (AExpr × List Tok)
  | 0, _ => .error .synErr
  | fuel + 1, ts => do
    let (lhs, rest) ← parseUnary fuel ts
    parseTermLoop fuel lhs rest

def parseTermLoop : ℕ → AExpr → List Tok → Except EvalError (AExpr × List Tok)
  | 0, _, _ => .error .synErr
  | fuel + 1, lhs, Tok.star :: rest => do
    let (rhs, rest2) ← parseUnary fuel rest
    parseTermLoop fuel (.mul lhs rhs) rest2
  | fuel + 1, lhs, Tok.slash :: rest => do
    let (rhs, rest2) ← parseUnary fuel rest
    parseTermLoop fuel (.div lhs rhs) rest2
  | fuel + 1, lhs, Tok.dslash :: rest => do
    let (rhs, rest2) ← parseUnary fuel rest
    parseTermLoop fuel (.fdiv lhs rhs) rest2
  | _ + 1, lhs, ts => .ok (lhs, ts)

/-- `u_expr: power | '-' u_expr | '+' u_expr` of the Python grammar. -/
def parseUnary : ℕ → List Tok → Except EvalError (AExpr × List Tok)
  | 0, _ => .error .synErr
  | fuel + 1, Tok.plus :: rest =>
    (parseUnary fuel rest).map (fun p => (.pos p.1, p.2))
  | fuel + 1, Tok.minus :: rest =>
    (parseUnary fuel rest).map (fun p => (.neg p.1, p.2))
  | fuel + 1, ts => parsePower fuel ts

/-- `power: atom ('**' u_expr)?` of the Python grammar (right-associative,
binding tighter than unary minus on the left). -/
def parsePower : ℕ → List Tok → Except EvalError (AExpr × List Tok)
  | 0, _ => .error .synErr
  | fuel + 1, ts => do
    let (base, rest) ← parseAtom fuel ts
    match rest with
    | Tok.dstar :: rest2 => do
      let (e, rest3) ← parseUnary fuel rest2
      pure (.pow base e, rest3)
    | _ => pure (base, rest)

def parseAtom : ℕ → List Tok → Except EvalError (AExpr × List Tok)
  | 0, _ => .error .synErr
  | _ + 1, Tok.num v :: rest => .ok (.num v, rest)
  | fuel + 1, Tok.lparen :: rest => do
    let (e, rest2) ← parseExpr fuel rest
    match rest2 with
    | Tok.rparen :: rest3 => pure (e, rest3)
    | _ => .error .synErr
  | _ + 1, _ => .error .synErr

end

def pyNeg : PyNum → PyNum
  | .int i => .int (-i)
  | .float q => .float (-q)

/-- Python `int` arithmetic stays `int`; any `float` operand contaminates. -/
def pyAdd : PyNum → PyNum → PyNum
  | .int a, .int b => .int (a + b)
  | a, b => .float (a.toQ + b.toQ)

def pySub : PyNum → PyNum → PyNum
  | .int a, .int b => .int (a - b)
  | a, b => .float (a.toQ - b.toQ)

def pyMul : PyNum → PyNum → PyNum
  | .int a, .int b => .int (a * b)
  | a, b => .float (a.toQ * b.toQ)

/-- Python `/` is true division: it always produces a `float` and raises
`ZeroDivisionError` on a zero divisor, including for `int` operands. -/
def pyDiv (a b : PyNum) : Except EvalError PyNum :=
  if b.toQ = 0 then .error .divByZero
  else .ok (.float (a.toQ / b.toQ))

/-- Python `//` is floor division; `int // int` stays `int`. -/
def pyFloorDiv (a b : PyNum) : Except EvalError PyNum :=
  if b.toQ = 0 then .error .divByZero
  else
    match a, b with
    | .int x, .int y => .ok (.int (Int.floor ((x : ℚ) / (y : ℚ))))
    | _, _ => .ok (.float ((Int.floor (a.toQ / b.toQ) : ℤ) : ℚ))

/-- Python `**` on the reachable fragment.  `int ** nonneg int` is exact;
a negative integral exponent gives a float (or `ZeroDivisionError` on a
zero base); a non-integral exponent would produce an irrational binary64
value and is marked with the `floatPow` model-boundary error. -/
def pyPow (a b : PyNum) : Except EvalError PyNum :=
  match a, b with
  | .int x, .int y =>
    if 0 ≤ y then .ok (.int (x ^ y.toNat))
    else if x = 0 then .error .divByZero
    else .ok (.float ((x : ℚ) ^ y))
  | _, _ =>
    if (b.toQ).den = 1 then
      if a.toQ = 0 ∧ (b.toQ).num < 0 then .error .divByZero
      else .ok (.float (a.toQ ^ (b.toQ).num))
    else .error .floatPow

/-- Evaluation of the parsed tree; operands are evaluated left to right as
in CPython, so the leftmost fault wins. -/
def evalA : AExpr → Except EvalError PyNum
  | .num v => .ok v
  | .pos e => evalA e
  | .neg e => (evalA e).map pyNeg
  | .add a b => do pure (pyAdd (← evalA a) (← evalA b))
  | .sub a b => do pure (pySub (← evalA a) (← evalA b))
  | .mul a b => do pure (pyMul (← evalA a) (← evalA b))
  | .div a b => do pyDiv (← evalA a) (← evalA b)
  | .fdiv a b => do pyFloorDiv (← evalA a) (← evalA b)
  | .pow a b => do pyPow (← evalA a) (← evalA b)

/-- Model of Python `eval` on the validated arithmetic charset:
tokenize, parse a complete expression, evaluate. -/
def evaluate (s : String) : Except EvalError PyNum := do
  let ts ← tokenize s
  match parseExpr (5 * ts.length + 5) ts with
  | .ok (e, []) => evalA e
  | .ok (_, _ :: _) => .error .synErr
  | .error err => .error err

/-- `str(e)` for the modelled exceptions.  `ZeroDivisionError` renders as
Python does; the syntax-error text is a representative (no claim pins it). -/
def renderError : EvalError → String
  | .divByZero => "division by zero"
  | .synErr => "invalid syntax (<string>, line 1)"
  | .floatPow => "non-rational power (model boundary)"

/-- Rendering of a result value for the success message.  `str(int)` is
exact; float formatting is an abstraction of `str(float)` (no claim
inspects a rendered float). -/
def pyNumRender : PyNum → String
  | .int i => toString i
  | .float q =>
    if q.den = 1 then toString q.num ++ ".0"
    else toString q.num ++ "/" ++ toString q.den

/-- The character allow-set of the calculate branch,
`claude_api_mcp_server.py` line 199: `set("0123456789+-*/.() ")`. -/
def allowed_chars : List Char := "0123456789+-*/.() ".toList

/-- The calculate branch of `execute_tool` (lines 196-207): validate the
expression against the allow-set; on success hand it to `eval` and format
the outcome, otherwise return the forbidden-character error.  The second
component is the list of expressions actually handed to Python `eval`. -/
def calculateBranch (expression : String) : String × List String :=
  if expression.data.all (fun c => decide (c ∈ allowed_chars)) then
    match evaluate expression with
    | .ok v => ("계산 결과: " ++ expression ++ " = " ++ pyNumRender v, [expression])
    | .error e => ("계산 오류: " ++ renderError e, [expression])
  else
    ("오류: 허용되지 않는 문자가 포함되어 있습니다.", [])

/-- One entry of the live process table after the per-field defaulting the
source applies at enumeration time (`proc.info[...] or ...`). -/
structure ProcessRecord where
  pid : ℤ
  name : String
  cpu_percent : ℚ
  memory_percent : ℚ
  status : String
  deriving DecidableEq, Repr

/-- A raw `psutil` record before defaulting; `none` models a `None` field. -/
structure RawProc where
  pid : Option ℤ
  name : Option String
  cpu_percent : Option ℚ
  memory_percent : Option ℚ
  status : Option String
  deriving DecidableEq, Repr

/-- Python `x or d` on an optional integer: `None` and `0` are falsy. -/
def pyOrInt (v : Option ℤ) (d : ℤ) : ℤ :=
  match v with
  | none => d
  | some n => if n = 0 then d else n

/-- Python `x or d` on an optional rational: `None` and `0.0` are falsy. -/
def pyOrQ (v : Option ℚ) (d : ℚ) : ℚ :=
  match v with
  | none => d
  | some q => if q = 0 then d else q

/-- Python `x or d` on an optional string: `None` and `""` are falsy. -/
def pyOrStr (v : Option String) (d : String) : String :=
  match v with
  | none => d
  | some s => if s = "" then d else s

/-- Record construction of `_get_process_list` (lines 285-291). -/
def buildRecord (r : RawProc) : ProcessRecord :=
  { pid := pyOrInt r.pid 0
    name := pyOrStr r.name "Unknown"
    cpu_percent := pyOrQ r.cpu_percent 0
    memory_percent := pyOrQ r.memory_percent 0
    status := pyOrStr r.status "Unknown" }

/-- Sort relation for `sort_by="cpu"`: stable descending by cpu percent. -/
def cpuDesc (a b : ProcessRecord) : Prop := b.cpu_percent ≤ a.cpu_percent

/-- Sort relation for `sort_by="memory"`: stable descending by memory. -/
def memDesc (a b : ProcessRecord) : Prop := b.memory_percent ≤ a.memory_percent

/-- Sort relation for `sort_by="name"`: ascending by lowercased name. -/
def nameAsc (a b : ProcessRecord) : Prop := a.name.toLower ≤ b.name.toLower

instance : DecidableRel cpuDesc := fun _ _ => inferInstanceAs (Decidable (_ ≤ _))

instance : DecidableRel memDesc := fun _ _ => inferInstanceAs (Decidable (_ ≤ _))

instance : DecidableRel nameAsc := fun _ _ => inferInstanceAs (Decidable (_ ≤ _))

instance : IsTotal ProcessRecord cpuDesc := ⟨fun a b => le_total b.cpu_percent a.cpu_percent⟩

instance : IsTrans ProcessRecord cpuDesc := ⟨fun _ _ _ h1 h2 => le_trans h2 h1⟩

instance : IsTotal ProcessRecord memDesc := ⟨fun a b => le_total b.memory_percent a.memory_percent⟩

instance : IsTrans ProcessRecord memDesc := ⟨fun _ _ _ h1 h2 => le_trans h2 h1⟩

instance : IsTotal ProcessRecord nameAsc := ⟨fun a b => le_total a.name.toLower b.name.toLower⟩

instance : IsTrans ProcessRecord nameAsc := ⟨fun _ _ _ h1 h2 => le_trans h1 h2⟩

/-- The sort step of `_get_process_list` (lines 296-301).  The source uses
Python `list.sort`, a stable sort; `List.insertionSort` is likewise stable,
and a stable sort under a total transitive relation is unique, so the two
agree extensionally.  `reverse=True` on a stable sort equals a stable sort
under the key-flipped relation. -/
def sortProcesses (sort_by : String) (ps : List ProcessRecord) : List ProcessRecord :=
  if sort_by = "cpu" then List.insertionSort cpuDesc ps
  else if sort_by = "memory" then List.insertionSort memDesc ps
  else if sort_by = "name" then List.insertionSort nameAsc ps
  else ps

/-- Sort-then-truncate core of `_get_process_list` (lines 296-304). -/
def get_process_list_records (max_processes : ℕ) (sort_by : String)
    (ps : List ProcessRecord) : List ProcessRecord :=
  (sortProcesses sort_by ps).take max_processes

/-- One-decimal rendering used for the `{:.1f}` interpolations; binary64
`.1f` rounding is abstracted to exact rational rounding. -/
def fmtTenths (q : ℚ) : String :=
  let n : ℤ := round (q * 10)
  (if n < 0 then "-" else "")
    ++ toString (n.natAbs / 10) ++ "." ++ toString (n.natAbs % 10)

def renderProcRow (p : ProcessRecord) : String :=
  toString p.pid ++ "\t" ++ p.name ++ "\t" ++ fmtTenths p.cpu_percent
    ++ "\t" ++ fmtTenths p.memory_percent ++ "\t" ++ p.status ++ "\n"

/-- `_get_process_list` (lines 279-316): default fields, sort, truncate,
render the table with a trailing count line. -/
def get_process_list (max_processes : ℕ) (sort_by : String)
    (raw : List RawProc) : String :=
  let chosen := get_process_list_records max_processes sort_by (raw.map buildRecord)
  "PID\t이름\tCPU%\t메모리%\t상태\n"
    ++ String.mk (List.replicate 50 '-') ++ "\n"
    ++ String.join (chosen.map renderProcRow)
    ++ "\n총 " ++ toString chosen.length ++ "개 프로세스 표시됨"

/-- A signal delivered to a pid: `terminate()` or `kill()`. -/
inductive Sig where
  | sigterm
  | sigkill
  deriving DecidableEq, Repr

/-- Python f-string rendering of an optional string (`None` shows as such). -/
def pyOptStr : Option String → String
  | none => "None"
  | some s => s

/-- Python truthiness of an optional string argument. -/
def truthyStr : Option String → Bool
  | none => false
  | some s => decide (s ≠ "")

/-- Python truthiness of an optional integer argument (`0` is falsy). -/
def truthyInt : Option ℤ → Bool
  | none => false
  | some n => decide (n ≠ 0)

/-- `_control_process` (lines 322-374).  `live` is the set of existing
pids; `psutil.Process` on a pid outside it raises `NoSuchProcess`, which
the source catches per action.  The second component lists the signals
actually sent; the start and name-only branches are inert by design. -/
def control_process (live : List ℤ) (action : Option String)
    (process_name : Option String) (process_id : Option ℤ) :
    String × List (ℤ × Sig) :=
  if !truthyStr process_name && !truthyInt process_id then
    ("오류: 프로세스명 또는 PID 중 하나는 반드시 지정해야 합니다.", [])
  else if action = some "start" then
    if !truthyStr process_name then
      ("오류: 프로세스 시작 시에는 프로세스명이 필요합니다.", [])
    else
      ("프로세스 \x27" ++ pyOptStr process_name
        ++ "\x27 시작을 시도합니다. (보안상 실제 실행은 제한됨)", [])
  else if action = some "stop" then
    if truthyInt process_id then
      let p := process_id.getD 0
      if p ∈ live then
        ("프로세스 PID " ++ toString p ++ " 종료 신호를 보냈습니다.", [(p, Sig.sigterm)])
      else
        ("오류: PID " ++ toString p ++ "인 프로세스를 찾을 수 없습니다.", [])
    else
      ("프로세스 \x27" ++ pyOptStr process_name ++ "\x27 종료를 시도합니다. (PID 지정 권장)", [])
  else if action = some "restart" then
    if truthyInt process_id then
      let p := process_id.getD 0
      if p ∈ live then
        ("프로세스 PID " ++ toString p ++ " 재시작을 시도합니다.", [(p, Sig.sigterm)])
      else
        ("오류: PID " ++ toString p ++ "인 프로세스를 찾을 수 없습니다.", [])
    else
      ("프로세스 \x27" ++ pyOptStr process_name ++ "\x27 재시작을 시도합니다. (PID 지정 권장)", [])
  else if action = some "kill" then
    if truthyInt process_id then
      let p := process_id.getD 0
      if p ∈ live then
        ("프로세스 PID " ++ toString p ++ "를 강제 종료했습니다.", [(p, Sig.sigkill)])
      else
        ("오류: PID " ++ toString p ++ "인 프로세스를 찾을 수 없습니다.", [])
    else
      ("프로세스 \x27" ++ pyOptStr process_name ++ "\x27 강제 종료를 시도합니다. (PID 지정 권장)", [])
  else
    ("알 수 없는 작업: " ++ pyOptStr action, [])

/-- Outcome of one `subprocess.run` invocation. -/
structure CmdResult where
  returncode : ℤ
  stdout : String
  stderr : String

/-- `_manage_service` (lines 376-463), parametrised by the host platform
string and a `subprocess.run` oracle.  The second component is the ordered
list of external commands executed.  The 10-second timeout raising
`TimeoutExpired` is outside the oracle model (no claim exercises it). -/
def manage_service (system : String) (run : List String → CmdResult)
    (action : Option String) (service_name : Option String) :
    String × List (List String) :=
  if !truthyStr service_name then
    ("오류: 서비스명을 지정해야 합니다.", [])
  else
    let svc := pyOptStr service_name
    if system = "Darwin" ∨ system = "Linux" then
      if action = some "status" then
        let r := run ["systemctl", "status", svc]
        if r.returncode = 0 then
          ("서비스 \x27" ++ svc ++ "\x27 상태:\n" ++ r.stdout, [["systemctl", "status", svc]])
        else
          ("서비스 \x27" ++ svc ++ "\x27 상태 조회 실패: " ++ r.stderr,
            [["systemctl", "status", svc]])
      else if action = some "start" then
        let r := run ["systemctl", "start", svc]
        if r.returncode = 0 then
          ("서비스 \x27" ++ svc ++ "\x27 시작 성공", [["systemctl", "start", svc]])
        else
          ("서비스 \x27" ++ svc ++ "\x27 시작 실패: " ++ r.stderr, [["systemctl", "start", svc]])
      else if action = some "stop" then
        let r := run ["systemctl", "stop", svc]
        if r.returncode = 0 then
          ("서비스 \x27" ++ svc ++ "\x27 중지 성공", [["systemctl", "stop", svc]])
        else
          ("서비스 \x27" ++ svc ++ "\x27 중지 실패: " ++ r.stderr, [["systemctl", "stop", svc]])
      else if action = some "restart" then
        let r := run ["systemctl", "restart", svc]
        if r.returncode = 0 then
          ("서비스 \x27" ++ svc ++ "\x27 재시작 성공", [["systemctl", "restart", svc]])
        else
          ("서비스 \x27" ++ svc ++ "\x27 재시작 실패: " ++ r.stderr,
            [["systemctl", "restart", svc]])
      else
        ("알 수 없는 작업: " ++ pyOptStr action, [])
    else if system = "Windows" then
      if action = some "status" then
        let r := run ["sc", "query", svc]
        if r.returncode = 0 then
          ("서비스 \x27" ++ svc ++ "\x27 상태:\n" ++ r.stdout, [["sc", "query", svc]])
        else
          ("서비스 \x27" ++ svc ++ "\x27 상태 조회 실패: " ++ r.stderr, [["sc", "query", svc]])
      else if action = some "start" then
        let r := run ["sc", "start", svc]
        if r.returncode = 0 then
          ("서비스 \x27" ++ svc ++ "\x27 시작 성공", [["sc", "start", svc]])
        else
          ("서비스 \x27" ++ svc ++ "\x27 시작 실패: " ++ r.stderr, [["sc", "start", svc]])
      else if action = some "stop" then
        let r := run ["sc", "stop", svc]
        if r.returncode = 0 then
          ("서비스 \x27" ++ svc ++ "\x27 중지 성공", [["sc", "stop", svc]])
        else
          ("서비스 \x27" ++ svc ++ "\x27 중지 실패: " ++ r.stderr, [["sc", "stop", svc]])
      else if action = some "restart" then
        let r := run ["sc", "stop", svc]
        if r.returncode = 0 then
          ("서비스 \x27" ++ svc ++ "\x27 재시작 성공", [["sc", "stop", svc], ["sc", "start", svc]])
        else
          ("서비스 \x27" ++ svc ++ "\x27 재시작 실패: " ++ r.stderr, [["sc", "stop", svc]])
      else
        ("알 수 없는 작업: " ++ pyOptStr action, [])
    else
      ("지원되지 않는 운영체제: " ++ system, [])

/-- The host facts the HTTP server reads through `platform`/`psutil`, plus
the live pid table and the `subprocess.run` oracle.  Numeric facts that the
source only interpolates into report strings are carried pre-rendered. -/
structure Env where
  system : String
  release : String
  pythonVersion : String
  processor : String
  nowStr : String
  cpuCount : ℕ
  cpuPercentStr : String
  memTotalStr : String
  memAvailableStr : String
  memPercentStr : String
  diskTotalStr : String
  diskFreeStr : String
  diskPercentStr : String
  procs : List RawProc
  livePids : List ℤ
  runCmd : List String → CmdResult

/-- The `basic` report of `_get_system_info` (lines 241-246). -/
def get_system_info_basic (e : Env) : String :=
  "🖥️ 기본 시스템 정보:\nOS: " ++ e.system ++ " " ++ e.release
    ++ "\nPython: " ++ e.pythonVersion
    ++ "\n프로세서: " ++ e.processor
    ++ "\n시스템 시간: " ++ e.nowStr

/-- The `detailed` report of `_get_system_info` (lines 248-268). -/
def get_system_info_detailed (e : Env) : String :=
  "📊 상세 시스템 정보:\nCPU: " ++ toString e.cpuCount ++ " 코어, 사용률: "
    ++ e.cpuPercentStr ++ "%"
    ++ "\n메모리: 총 " ++ e.memTotalStr ++ ", 사용 가능: " ++ e.memAvailableStr
    ++ ", 사용률: " ++ e.memPercentStr ++ "%"
    ++ "\n디스크: 총 " ++ e.diskTotalStr ++ ", 여유: " ++ e.diskFreeStr
    ++ ", 사용률: " ++ e.diskPercentStr ++ "%"

/-- `_get_system_info` (lines 238-273): `basic`, `detailed`, and an else
branch that concatenates both reports (the source reaches it for `"all"`
and for every other value of `info_type`). -/
def get_system_info (e : Env) (info_type : String) : String :=
  if info_type = "basic" then get_system_info_basic e
  else if info_type = "detailed" then get_system_info_detailed e
  else get_system_info_basic e ++ "\n\n" ++ get_system_info_detailed e

/-- The argument dictionary of a tool invocation, projected to the keys the
handlers read; `none` models an absent key, so `arguments.get(k, d)`
becomes `Option.getD` and `arguments.get(k)` the raw option. -/
structure Args where
  name : Option String
  expression : Option String
  info_type : Option String
  max_processes : Option ℕ
  sort_by : Option String
  action : Option String
  process_name : Option String
  process_id : Option ℤ
  service_name : Option String

/-- The empty argument dictionary `{}`. -/
def emptyArgs : Args := ⟨none, none, none, none, none, none, none, none, none⟩

/-- The reified side effects of one dispatch: expressions handed to Python
`eval`, signals sent to pids, external commands executed. -/
structure Effects where
  evals : List String
  signals : List (ℤ × Sig)
  commands : List (List String)
  deriving DecidableEq, Repr

def noEffects : Effects := ⟨[], [], []⟩

/-- The tool names registered in `self.tools` of the HTTP server
(`claude_api_mcp_server.py` lines 64-180); they coincide with the branches
of the `execute_tool` if/elif chain. -/
def http_tool_names : List String :=
  ["hello_world", "get_current_time", "calculate", "system_info",
   "process_list", "process_control", "service_management"]

/-- `MCPServer.execute_tool` of the HTTP server (lines 182-236): the
name-to-handler dispatch chain with per-handler argument defaulting.  The
outer `try/except` never fires in the model because every branch is total,
mirroring the source where each handler already catches its own faults. -/
def execute_tool (env : Env) (tool_name : String) (args : Args) : String × Effects :=
  if tool_name = "hello_world" then
    ("안녕하세요, " ++ (args.name.getD "세계")
      ++ "님! Claude API MCP 서버에 오신 것을 환영합니다.", noEffects)
  else if tool_name = "get_current_time" then
    ("현재 시간: " ++ env.nowStr, noEffects)
  else if tool_name = "calculate" then
    let r := calculateBranch (args.expression.getD "")
    (r.1, ⟨r.2, [], []⟩)
  else if tool_name = "system_info" then
    (get_system_info env (args.info_type.getD "basic"), noEffects)
  else if tool_name = "process_list" then
    (get_process_list (args.max_processes.getD 20) (args.sort_by.getD "cpu") env.procs,
      noEffects)
  else if tool_name = "process_control" then
    let r := control_process env.livePids args.action args.process_name args.process_id
    (r.1, ⟨[], r.2, []⟩)
  else if tool_name = "service_management" then
    let r := manage_service env.system env.runCmd args.action args.service_name
    (r.1, ⟨[], [], r.2⟩)
  else
    ("알 수 없는 도구: " ++ tool_name, noEffects)

/-- The response model of the `/tools/call` route. -/
structure ToolCallResponse where
  success : Bool
  result : String
  error : Option String
  deriving DecidableEq, Repr

/-- The `/tools/call` route handler (lines 510-525).  Its `except` arm,
which builds `success=False`, fires only when `execute_tool` raises; the
source `execute_tool` converts every handler exception to a string inside
its own `try/except`, so the route always takes the success arm. -/
def call_tool (env : Env) (tool_name : String) (args : Args) : ToolCallResponse :=
  ⟨true, (execute_tool env tool_name args).1, none⟩

/-- The tool names registered in `self.tools` of the stdio JSON-RPC server
(`mcp_server.py` lines 21-45). -/
def stdio_tool_names : List String := ["hello_world", "get_current_time"]

/-- A JSON-RPC reply body: a text result or an `error{code, message}`. -/
inductive RpcOut where
  | result (text : String)
  | rpcError (code : ℤ) (message : String)
  deriving DecidableEq, Repr

/-- `MCPServer.handle_call_tool` of the stdio server (lines 58-93),
parametrised by the formatted current time. -/
def handle_call_tool (nowStr : String) (tool_name : String) (args : Args) : RpcOut :=
  if tool_name = "hello_world" then
    .result ("안녕하세요, " ++ (args.name.getD "세계") ++ "님! MCP 서버에 오신 것을 환영합니다.")
  else if tool_name = "get_current_time" then
    .result ("현재 시간: " ++ nowStr)
  else
    .rpcError (-32601) ("알 수 없는 도구: " ++ tool_name)

/-- A concrete host environment used by the closed witness statements. -/
def defaultEnv : Env :=
  ⟨"Linux", "6.1.0", "3.11.2", "x86_64", "2026-01-01 00:00:00", 4, "12.5",
   "16.0 GB", "8.0 GB", "50.0", "100.0 GB", "40.0 GB", "60.0", [], [1, 2],
   fun _ => ⟨0, "", ""⟩⟩

/-- Claim C1: every calculate input containing a character outside the
allow-set `0-9 + - * / . ( ) space` is rejected by the validator with the
forbidden-character error message, and Python `eval` is never invoked on
it — the dispatch produces no effects, in particular an empty eval trace. -/
theorem calculate_rejects_forbidden_characters
    (env : Env) (args : Args) (s : String)
    (hexpr : args.expression = some s)
    (hbad : ∃ c ∈ s.data, c ∉ allowed_chars) :
    execute_tool env "calculate" args
      = ("오류: 허용되지 않는 문자가 포함되어 있습니다.", noEffects) := by
  have hdispatch : execute_tool env "calculate" args
      = ((calculateBranch (args.expression.getD "")).1,
         ⟨(calculateBranch (args.expression.getD "")).2, [], []⟩) := rfl
  have hall : s.data.all (fun c => decide (c ∈ allowed_chars)) = false := by
    rcases hbad with ⟨c, hc, hnc⟩
    rw [List.all_eq_false]
    exact ⟨c, hc, by simpa using hnc⟩
  rw [hdispatch, hexpr]
  simp only [Option.getD_some]
  unfold calculateBranch
  rw [hall]
  simp [noEffects]

/-- Closed witness for C1 at the concrete injection attempt `__import__`,
which contains underscores outside the allow-set. -/
theorem calculate_rejects_forbidden_characters_witness :
    execute_tool defaultEnv "calculate"
        ⟨none, some "__import__", none, none, none, none, none, none, none⟩
      = ("오류: 허용되지 않는 문자가 포함되어 있습니다.", noEffects) :=
  calculate_rejects_forbidden_characters defaultEnv _ "__import__" rfl (by decide)

/-- Claim C2 counterexample: dispatching the unknown tool name
`no_such_tool` yields `success = true` with the unknown-tool text in
`result` and `error = none` — not the claimed
`{success: false, result: "", error: "unknown tool"}` envelope — because
`execute_tool` returns the message as an ordinary string and the route
wraps every non-raising return in a success envelope. -/
theorem unknown_tool_success_envelope_counterexample :
    call_tool defaultEnv "no_such_tool" emptyArgs
      = ⟨true, "알 수 없는 도구: no_such_tool", none⟩ := rfl

/-- Claim C2 (amended): for every tool name outside the registered list the
dispatch returns the unknown-tool message string with no effects, and the
HTTP route wraps it as `success = true`, `error = none`; no exception
propagates past the dispatch boundary (the model is total). -/
theorem unknown_tool_message_envelope
    (env : Env) (args : Args) (t : String)
    (h : t ∉ http_tool_names) :
    execute_tool env t args = ("알 수 없는 도구: " ++ t, noEffects) ∧
    call_tool env t args = ⟨true, "알 수 없는 도구: " ++ t, none⟩ := by
  simp only [http_tool_names, List.mem_cons, List.not_mem_nil, or_false, not_or] at h
  obtain ⟨h1, h2, h3, h4, h5, h6, h7⟩ := h
  refine ⟨?_, ?_⟩
  · simp [execute_tool, h1, h2, h3, h4, h5, h6, h7]
  · simp [call_tool, execute_tool, h1, h2, h3, h4, h5, h6, h7]

/-- Closed witness for the amended C2 at `no_such_tool`. -/
theorem unknown_tool_message_envelope_witness :
    execute_tool defaultEnv "no_such_tool" emptyArgs
        = ("알 수 없는 도구: no_such_tool", noEffects) ∧
    call_tool defaultEnv "no_such_tool" emptyArgs
        = ⟨true, "알 수 없는 도구: no_such_tool", none⟩ :=
  unknown_tool_message_envelope defaultEnv emptyArgs "no_such_tool" (by decide)

/-- Claim C3: the arithmetic evaluator computes standard precedence and
associativity (`2+3*4 = 14`, `(2+3)*4 = 20`), and `1/0` produces the
division-by-zero `EvalError`, which the calculate branch converts into an
error message string rather than letting a crash escape. -/
theorem evaluate_precedence_and_division_by_zero :
    evaluate "2+3*4" = .ok (.int 14) ∧
    evaluate "(2+3)*4" = .ok (.int 20) ∧
    evaluate "1/0" = .error .divByZero ∧
    calculateBranch "1/0" = ("계산 오류: division by zero", ["1/0"]) :=
  ⟨rfl, rfl, rfl, rfl⟩

/-- Claim C4 counterexample: invoking `hello_world` with the empty argument
dictionary (missing the required `name`) runs the handler on the default
and returns the default greeting, and invoking `calculate` without the
required `expression` hands the default empty string to the evaluator;
neither invocation fails a validation step. -/
theorem missing_required_argument_counterexample :
    (execute_tool defaultEnv "hello_world" emptyArgs).1
        = "안녕하세요, 세계님! Claude API MCP 서버에 오신 것을 환영합니다." ∧
    (execute_tool defaultEnv "calculate" emptyArgs).2.evals = [""] :=
  ⟨rfl, rfl⟩

/-- Claim C4 (amended): the dispatch performs no required-argument
validation; a missing argument is replaced by the per-handler default via
`arguments.get`, and the handler runs on that default (`hello_world`
greets `세계`, `calculate` evaluates the empty string). -/
theorem missing_arguments_run_handlers_on_defaults
    (env : Env) (args : Args)
    (hname : args.name = none) (hexpr : args.expression = none) :
    execute_tool env "hello_world" args
        = ("안녕하세요, 세계님! Claude API MCP 서버에 오신 것을 환영합니다.", noEffects) ∧
    (execute_tool env "calculate" args).2.evals = [""] := by
  refine ⟨?_, ?_⟩
  · have h : execute_tool env "hello_world" args
        = ("안녕하세요, " ++ (args.name.getD "세계")
            ++ "님! Claude API MCP 서버에 오신 것을 환영합니다.", noEffects) := rfl
    rw [h, hname]
    rfl
  · have h : (execute_tool env "calculate" args).2.evals
        = (calculateBranch (args.expression.getD "")).2 := rfl
    rw [h, hexpr]
    rfl

/-- Closed witness for the amended C4 at the empty argument dictionary. -/
theorem missing_arguments_run_handlers_on_defaults_witness :
    execute_tool defaultEnv "hello_world" emptyArgs
        = ("안녕하세요, 세계님! Claude API MCP 서버에 오신 것을 환영합니다.", noEffects) ∧
    (execute_tool defaultEnv "calculate" emptyArgs).2.evals = [""] :=
  missing_arguments_run_handlers_on_defaults defaultEnv emptyArgs rfl rfl

/-- Helper: a common prefix and middle followed by suffixes of different
lengths yields different strings. -/
theorem append_ne_of_suffix_length_ne (p m : String) {s1 s2 : String}
    (h : s1.length ≠ s2.length) : p ++ m ++ s1 ≠ p ++ m ++ s2 := by
  intro he
  apply h
  have hl := congrArg String.length he
  simp only [String.length_append] at hl
  omega

/-- Claim C5 counterexample: `calculate` is enumerable and invocable on the
HTTP transport (where it evaluates arithmetic) but is unknown to the stdio
transport, which answers it with the JSON-RPC `-32601` unknown-tool error;
the two transports therefore do not expose the same dispatch table. -/
theorem transports_differ_counterexample :
    "calculate" ∈ http_tool_names ∧
    "calculate" ∉ stdio_tool_names ∧
    handle_call_tool "2026-01-01 00:00:00" "calculate" emptyArgs
      = .rpcError (-32601) "알 수 없는 도구: calculate" ∧
    (execute_tool defaultEnv "calculate"
        ⟨none, some "1+1", none, none, none, none, none, none, none⟩).1
      = "계산 결과: 1+1 = 2" :=
  ⟨by decide, by decide, rfl, rfl⟩

/-- Claim C5 (amended): the stdio transport's dispatch table is a strict
subset of the HTTP transport's: `hello_world` and `get_current_time` exist
on both, every HTTP-only tool is answered on stdio with the JSON-RPC
unknown-tool error, `get_current_time` behaves identically on the two
transports, and the shared `hello_world` returns different greeting text
on each transport for every argument. -/
theorem stdio_dispatch_strict_subset_of_http :
    stdio_tool_names ⊆ http_tool_names ∧
    (∀ t ∈ http_tool_names, t ∉ stdio_tool_names →
      ∀ nowStr args, handle_call_tool nowStr t args
        = .rpcError (-32601) ("알 수 없는 도구: " ++ t)) ∧
    (∀ env : Env, ∀ args : Args,
      handle_call_tool env.nowStr "get_current_time" args
        = .result (execute_tool env "get_current_time" args).1) ∧
    (∀ env : Env, ∀ args : Args,
      RpcOut.result (execute_tool env "hello_world" args).1
        ≠ handle_call_tool env.nowStr "hello_world" args) := by
  refine ⟨by decide, ?_, fun env args => rfl, ?_⟩
  · intro t _ hns nowStr args
    simp only [stdio_tool_names, List.mem_cons, List.not_mem_nil, or_false,
      not_or] at hns
    obtain ⟨hn1, hn2⟩ := hns
    simp [handle_call_tool, hn1, hn2]
  · intro env args h
    have hred : RpcOut.result ("안녕하세요, " ++ args.name.getD "세계"
        ++ "님! Claude API MCP 서버에 오신 것을 환영합니다.")
        = RpcOut.result ("안녕하세요, " ++ args.name.getD "세계"
        ++ "님! MCP 서버에 오신 것을 환영합니다.") := h
    rw [RpcOut.result.injEq] at hred
    exact append_ne_of_suffix_length_ne "안녕하세요, " (args.name.getD "세계")
      (by decide) hred

/-- Closed witness for the amended C5: the shared tool `hello_world` is in
the HTTP table, obtained through the subset inclusion. -/
theorem stdio_dispatch_strict_subset_of_http_witness :
    "hello_world" ∈ http_tool_names :=
  stdio_dispatch_strict_subset_of_http.1 (by decide)

/-- Claim C6: the process listing with `sort_by="cpu"` returns at most
`max_count` records in non-increasing `cpu_percent` order; truncation
happens after sorting, so every returned record has cpu at least that of
every record the truncation dropped; with `sort_by="name"` the records are
in ascending case-insensitive name order; a missing cpu value is treated
as `0.0` at record construction. -/
theorem process_list_sorted_truncated (ps : List ProcessRecord) (m : ℕ) :
    (get_process_list_records m "cpu" ps).length ≤ m ∧
    (get_process_list_records m "cpu" ps).Pairwise
      (fun a b => b.cpu_percent ≤ a.cpu_percent) ∧
    (∀ a ∈ get_process_list_records m "cpu" ps,
      ∀ b ∈ (sortProcesses "cpu" ps).drop m, b.cpu_percent ≤ a.cpu_percent) ∧
    (get_process_list_records m "name" ps).length ≤ m ∧
    (get_process_list_records m "name" ps).Pairwise
      (fun a b => a.name.toLower ≤ b.name.toLower) ∧
    (∀ r : RawProc, r.cpu_percent = none → (buildRecord r).cpu_percent = 0) := by
  have hscpu : List.Sorted cpuDesc (List.insertionSort cpuDesc ps) :=
    List.sorted_insertionSort cpuDesc ps
  have hsname : List.Sorted nameAsc (List.insertionSort nameAsc ps) :=
    List.sorted_insertionSort nameAsc ps
  refine ⟨List.length_take_le m _, ?_, ?_, List.length_take_le m _, ?_, ?_⟩
  · exact List.Pairwise.sublist (List.take_sublist m _) hscpu
  · intro a ha b hb
    exact hscpu.rel_of_mem_take_of_mem_drop ha hb
  · exact List.Pairwise.sublist (List.take_sublist m _) hsname
  · intro r h
    simp [buildRecord, pyOrQ, h]

/-- Closed witness for C6 on a concrete two-process table truncated to one
record. -/
theorem process_list_sorted_truncated_witness :
    (get_process_list_records 1 "cpu"
        [⟨1, "bash", 5, 1, "running"⟩, ⟨2, "init", 9, 2, "sleeping"⟩]).length ≤ 1 :=
  (process_list_sorted_truncated
    [⟨1, "bash", 5, 1, "running"⟩, ⟨2, "init", 9, 2, "sleeping"⟩] 1).1

/-- Claim C7: `stop` (graceful) or `kill` (forced) on a pid that names no
existing process returns the not-found error message, sends no signal to
any process, and nothing escapes the tool boundary (the handler is total).
A truthy pid argument is nonzero: Python truthiness routes a zero pid to
the name-only branch, so that is the scope of the pid-bearing branches. -/
theorem control_nonexistent_pid_not_found
    (live : List ℤ) (nm : Option String) (p : ℤ)
    (hlive : p ∉ live) (hp : p ≠ 0) :
    control_process live (some "stop") nm (some p)
        = ("오류: PID " ++ toString p ++ "인 프로세스를 찾을 수 없습니다.", []) ∧
    control_process live (some "kill") nm (some p)
        = ("오류: PID " ++ toString p ++ "인 프로세스를 찾을 수 없습니다.", []) := by
  have ht : truthyInt (some p) = true := by simp [truthyInt, hp]
  refine ⟨?_, ?_⟩ <;> simp [control_process, ht, hlive]

/-- Closed witness for C7: pid 99 against the live table `[1, 2]`. -/
theorem control_nonexistent_pid_not_found_witness :
    control_process [1, 2] (some "stop") none (some 99)
        = ("오류: PID 99인 프로세스를 찾을 수 없습니다.", []) ∧
    control_process [1, 2] (some "kill") none (some 99)
        = ("오류: PID 99인 프로세스를 찾을 수 없습니다.", []) :=
  control_nonexistent_pid_not_found [1, 2] none 99 (by decide) (by decide)

/-- Claim C8: the `start` action, and any action invoked without a truthy
pid (name-only invocations), performs no OS side effect — no signal is
sent and no process is spawned — and `start` with a name returns the
advisory not-actually-executed message. -/
theorem control_start_or_name_only_inert
    (live : List ℤ) (action : Option String) (nm : Option String) (pid : Option ℤ)
    (h : action = some "start" ∨ truthyInt pid = false) :
    (control_process live action nm pid).2 = [] ∧
    (action = some "start" → truthyStr nm = true →
      (control_process live action nm pid).1
        = "프로세스 \x27" ++ pyOptStr nm
          ++ "\x27 시작을 시도합니다. (보안상 실제 실행은 제한됨)") := by
  refine ⟨?_, ?_⟩
  · rcases h with h | h
    · subst h
      simp only [control_process]
      repeat' split
      all_goals first | rfl | (exfalso; simp_all)
    · simp only [control_process, h]
      repeat' split
      all_goals first | rfl | (exfalso; simp_all)
  · intro ha hnm
    subst ha
    have hg : (!truthyStr nm && !truthyInt pid) = false := by
      rw [hnm]
      rfl
    simp [control_process, hg, hnm]

/-- Closed witness for C8: `start` with a name and no pid sends no
signal. -/
theorem control_start_or_name_only_inert_witness :
    (control_process [5] (some "start") (some "foo") none).2 = [] :=
  (control_start_or_name_only_inert [5] (some "start") (some "foo") none
    (Or.inl rfl)).1

/-- The `subprocess.run` oracle used by the C9 witness: `sc stop svc1`
exits 1 with `boom` on stderr, everything else succeeds. -/
def failingStopRun : List String → CmdResult :=
  fun c => if c = ["sc", "stop", "svc1"] then ⟨1, "", "boom"⟩ else ⟨0, "", ""⟩

/-- Claim C9: on the Windows-style adapter `restart` is synthesized as stop
followed by start; when the stop command exits non-zero, the start command
is never executed (the command trace holds only the stop invocation) and
the action reports failure carrying the stop command's captured stderr. -/
theorem windows_restart_stop_failure_aborts
    (run : List String → CmdResult) (svc : Option String)
    (hsvc : truthyStr svc = true)
    (hfail : (run ["sc", "stop", pyOptStr svc]).returncode ≠ 0) :
    manage_service "Windows" run (some "restart") svc
        = ("서비스 \x27" ++ pyOptStr svc ++ "\x27 재시작 실패: "
            ++ (run ["sc", "stop", pyOptStr svc]).stderr,
           [["sc", "stop", pyOptStr svc]]) ∧
    ["sc", "start", pyOptStr svc]
        ∉ (manage_service "Windows" run (some "restart") svc).2 := by
  have hmain : manage_service "Windows" run (some "restart") svc
      = ("서비스 \x27" ++ pyOptStr svc ++ "\x27 재시작 실패: "
          ++ (run ["sc", "stop", pyOptStr svc]).stderr,
         [["sc", "stop", pyOptStr svc]]) := by
    simp [manage_service, hsvc, hfail]
  refine ⟨hmain, ?_⟩
  rw [hmain]
  simp

/-- Closed witness for C9 under the concrete failing-stop oracle. -/
theorem windows_restart_stop_failure_aborts_witness :
    manage_service "Windows" failingStopRun (some "restart") (some "svc1")
        = ("서비스 \x27svc1\x27 재시작 실패: boom", [["sc", "stop", "svc1"]]) ∧
    ["sc", "start", "svc1"]
        ∉ (manage_service "Windows" failingStopRun (some "restart") (some "svc1")).2 :=
  windows_restart_stop_failure_aborts failingStopRun (some "svc1")
    (by decide) (by decide)

/-- Claim C10: every `info_type` other than `basic` and `detailed` — any
string at all, not only `all` — takes the else branch and returns the
basic report, a blank line, and the detailed report; invalid levels are
never rejected as errors, both at `_get_system_info` itself and through
the `system_info` dispatch branch. -/
theorem system_info_fallthrough_to_all
    (env : Env) (t : String)
    (h1 : t ≠ "basic") (h2 : t ≠ "detailed") :
    get_system_info env t
        = get_system_info env "basic" ++ "\n\n" ++ get_system_info env "detailed" ∧
    (execute_tool env "system_info"
        ⟨none, none, some t, none, none, none, none, none, none⟩).1
        = get_system_info env "basic" ++ "\n\n" ++ get_system_info env "detailed" := by
  have hmain : get_system_info env t
      = get_system_info env "basic" ++ "\n\n" ++ get_system_info env "detailed" := by
    simp [get_system_info, h1, h2]
  refine ⟨hmain, ?_⟩
  have hd : (execute_tool env "system_info"
      ⟨none, none, some t, none, none, none, none, none, none⟩).1
      = get_system_info env t := rfl
  rw [hd, hmain]

/-- Closed witness for C10 at the invalid level `bogus`, never listed in
the schema. -/
theorem system_info_fallthrough_to_all_witness :
    get_system_info defaultEnv "bogus"
        = get_system_info defaultEnv "basic" ++ "\n\n"
          ++ get_system_info defaultEnv "detailed" :=
  (system_info_fallthrough_to_all defaultEnv "bogus" (by decide) (by decide)).1

end MCPWork
